import Mathlib

/-!
Shallow embedding of `lxd/migrate_instance.go`: the instance migration
transport layer (source session, sink session in push and pull modes,
channel barrier, secret handling).

External effects are passed in explicitly:
* `ConstructEnv` carries the outcomes of `shared.RandomCryptoString` calls and
  of the `exec.LookPath("criu")` capability probe at construction time;
* `SinkDoEnv` carries whether the channel barrier was satisfied before the
  10-second timer and the outcomes of the `connectWithSecret` dials;
* driver callbacks (`MigrateSend` / `MigrateReceive`) are abstracted by the
  error they return, and `Do` results record the calls made to them.

Connections are modelled by identifiers (`Nat`); `Option Nat` stands for a
possibly-nil websocket pointer field.
-/

set_option autoImplicit false

namespace MigrateInstance

/-- `instancetype.Type`: the workload kind. -/
inductive InstanceType where
  | container
  | vm
deriving DecidableEq, Repr

/-- The slice of `instance.Instance` that `migrate_instance.go` reads. -/
structure Instance where
  projectName : String
  name : String
  isRunning : Bool
  typ : InstanceType
deriving DecidableEq, Repr

/-- Go `error` values as this file produces them: plain messages,
`fmt.Errorf("...: %w", err)` wrapping, and the two sentinel errors from the
`migration` package. -/
inductive GoError where
  | msg : String → GoError
  | wrap : String → GoError → GoError
  | noLiveMigrationSource
  | noLiveMigrationTarget
deriving DecidableEq, Repr

/-- Go `errors.Is` restricted to the unwrap chain built by `GoError.wrap`. -/
def GoError.errorsIs : GoError → GoError → Bool
  | .wrap s inner, target => decide (GoError.wrap s inner = target) || inner.errorsIs target
  | e, target => decide (e = target)

/-- The `migrationFields` struct embedded in both session kinds.
Secrets are Go strings (zero value `""`); connections are nil until bound. -/
structure migrationFields where
  inst : Instance
  instanceOnly : Bool := false
  allowInconsistent : Bool := false
  live : Bool := false
  controlSecret : String := ""
  fsSecret : String := ""
  stateSecret : String := ""
  controlConn : Option Nat := none
  fsConn : Option Nat := none
  stateConn : Option Nat := none
deriving DecidableEq, Repr

/-- `migrationSourceWs`. The `allConnected` barrier is not a field here; its
observable behaviour (signalled before the timeout or not) is an input of
`Do`. -/
structure migrationSourceWs extends migrationFields where
  clusterMoveSourceName : String := ""
deriving DecidableEq, Repr

/-- `migrationSink`. The pull-mode dialer/url are opaque to this layer; the
dial outcomes they determine are inputs of `Do`. -/
structure migrationSink extends migrationFields where
  url : String := ""
  clusterMoveSourceName : String := ""
  push : Bool := false
  refresh : Bool := false
deriving DecidableEq, Repr

/-- The caller-supplied secrets map of pull mode, with its three known keys
(`api.SecretNameControl`, `api.SecretNameFilesystem`, `api.SecretNameState`)
made explicit slots; `none` models a missing key. -/
structure Secrets where
  control : Option String := none
  filesystem : Option String := none
  state : Option String := none
deriving DecidableEq, Repr

/-- `migrationSinkArgs`. -/
structure migrationSinkArgs where
  inst : Instance
  instanceOnly : Bool := false
  url : String := ""
  clusterMoveSourceName : String := ""
  push : Bool := false
  refresh : Bool := false
  live : Bool := false
  secrets : Secrets := {}
deriving DecidableEq, Repr

/-- Construction-time environment: outcomes of the up-to-three
`shared.RandomCryptoString()` calls (in the order the code makes them) and
whether `exec.LookPath("criu")` succeeds. -/
structure ConstructEnv where
  randControl : Except GoError String := .ok "rand-control"
  randFs : Except GoError String := .ok "rand-fs"
  randState : Except GoError String := .ok "rand-state"
  criuFound : Bool := true
deriving Repr

/-- `newMigrationSource` (migrate_instance.go lines 22-62). -/
def newMigrationSource (inst : Instance) (stateful instanceOnly allowInconsistent : Bool)
    (clusterMoveSourceName : String) (env : ConstructEnv) :
    Except GoError migrationSourceWs :=
  match env.randControl with
  | .error e => .error (.wrap "Failed creating migration source secret for control websocket" e)
  | .ok controlSecret =>
    match env.randFs with
    | .error e => .error (.wrap "Failed creating migration source secret for filesystem websocket" e)
    | .ok fsSecret =>
      let ret : migrationSourceWs :=
        { inst := inst
          instanceOnly := instanceOnly
          allowInconsistent := allowInconsistent
          controlSecret := controlSecret
          fsSecret := fsSecret
          clusterMoveSourceName := clusterMoveSourceName }
      if stateful && inst.isRunning then
        if inst.typ == InstanceType.container then
          if !env.criuFound then
            .error .noLiveMigrationSource
          else
            match env.randState with
            | .error e =>
              .error (.wrap "Failed creating migration source secret for state websocket" e)
            | .ok stateSecret => .ok { ret with live := true, stateSecret := stateSecret }
        else
          .ok { ret with live := true }
      else
        .ok ret

/-- `newMigrationSink` (migrate_instance.go lines 127-187). -/
def newMigrationSink (args : migrationSinkArgs) (env : ConstructEnv) :
    Except GoError migrationSink :=
  let base : migrationSink :=
    { inst := args.inst
      instanceOnly := args.instanceOnly
      url := args.url
      clusterMoveSourceName := args.clusterMoveSourceName
      push := args.push
      refresh := args.refresh }
  let filled : Except GoError migrationSink :=
    if base.push then
      match env.randControl with
      | .error e => .error (.wrap "Failed creating migration sink secret for control websocket" e)
      | .ok controlSecret =>
        match env.randFs with
        | .error e =>
          .error (.wrap "Failed creating migration sink secret for filesystem websocket" e)
        | .ok fsSecret =>
          if args.live then
            match env.randState with
            | .error e =>
              .error (.wrap "Failed creating migration sink secret for state websocket" e)
            | .ok stateSecret =>
              .ok { base with
                    controlSecret := controlSecret, fsSecret := fsSecret
                    live := true, stateSecret := stateSecret }
          else
            .ok { base with controlSecret := controlSecret, fsSecret := fsSecret, live := false }
    else
      match args.secrets.control with
      | none => .error (.msg "Missing migration sink secret for control websocket")
      | some controlSecret =>
        match args.secrets.filesystem with
        | none => .error (.msg "Missing migration sink secret for filesystem websocket")
        | some fsSecret =>
          .ok { base with
                controlSecret := controlSecret, fsSecret := fsSecret
                stateSecret := args.secrets.state.getD ""
                live := args.secrets.state.isSome || args.live }
  match filled with
  | .error e => .error e
  | .ok sink =>
    if sink.inst.typ == InstanceType.container && sink.live && !env.criuFound then
      .error .noLiveMigrationTarget
    else
      .ok sink

/-- Closed/open status of a session's three possibly-bound connections;
all-open is the initial state. -/
structure ConnState where
  controlClosed : Bool := false
  fsClosed : Bool := false
  stateClosed : Bool := false
deriving DecidableEq, Repr

/-- The `Disconnect` closure built inside both `migrationSourceWs.Do`
(lines 106-114) and `migrationSink.Do` (lines 260-268) and passed to the
driver in `MigrateArgs`: it closes the filesystem and state connections when
non-nil. `fsConn`/`stateConn` are the session's fields as captured by the
closure. -/
def migrateArgsDisconnect (fsConn stateConn : Option Nat) (cs : ConnState) : ConnState :=
  let cs := if fsConn.isSome then { cs with fsClosed := true } else cs
  if stateConn.isSome then { cs with stateClosed := true } else cs

/-- Modelled from the spec: the shared `disconnect()` method of
`migrationFields` is defined in `migrate.go`, which is not part of this
slice. Per the spec (section 4.4) it is idempotent and "closes every non-nil
bound connection exactly once regardless of how many times invoked". -/
def migrationFields.disconnect (f : migrationFields) (cs : ConnState) : ConnState :=
  let cs := if f.controlConn.isSome then { cs with controlClosed := true } else cs
  let cs := if f.fsConn.isSome then { cs with fsClosed := true } else cs
  if f.stateConn.isSome then { cs with stateClosed := true } else cs

/-- The observable content of one `instance.MigrateArgs` value as built by
`Do`: what the per-channel accessor functions return (mirroring
`if conn == nil then nil else wrap conn`), and the flag fields. -/
structure MigrateArgsCall where
  stateConnFuncResult : Option Nat
  filesystemConnFuncResult : Option Nat
  snapshots : Bool
  live : Bool
  clusterMoveSourceName : String
deriving DecidableEq, Repr

/-- One call to `instance.MigrateSend` (source side). -/
structure MigrateSendCall extends MigrateArgsCall where
  allowInconsistent : Bool
deriving DecidableEq, Repr

/-- One call to `instance.MigrateReceive` (sink side). -/
structure MigrateReceiveCall extends MigrateArgsCall where
  refresh : Bool
deriving DecidableEq, Repr

/-- Observable outcome of one `migrationSourceWs.Do` run. `finalConns`
records which connections the deferred `disconnect()` closed by return time
(all-open when the deferral was never registered). -/
structure SourceDoResult where
  result : Option GoError
  barrierCancelled : Bool
  sendCalls : List MigrateSendCall
  disconnectRan : Bool
  finalConns : ConnState
deriving DecidableEq, Repr

/-- `migrationSourceWs.Do` (lines 64-125). `allConnectedBeforeTimeout` is
whether `s.allConnected.Done()` fired before the 10-second timer; the
session's connection fields hold whatever the inbound handlers bound by that
point. `migrateSendErr` is the driver's return value (none = nil). -/
def migrationSourceWs.Do (s : migrationSourceWs) (allConnectedBeforeTimeout : Bool)
    (migrateSendErr : Option GoError) : SourceDoResult :=
  if !allConnectedBeforeTimeout then
    { result := some (.msg "Timed out waiting for migration connections")
      barrierCancelled := true
      sendCalls := []
      disconnectRan := false
      finalConns := {} }
  else
    let call : MigrateSendCall :=
      { stateConnFuncResult := s.stateConn
        filesystemConnFuncResult := s.fsConn
        snapshots := !s.instanceOnly
        live := s.live
        clusterMoveSourceName := s.clusterMoveSourceName
        allowInconsistent := s.allowInconsistent }
    { result := migrateSendErr.map (GoError.wrap "Failed migration on source")
      barrierCancelled := false
      sendCalls := [call]
      disconnectRan := true
      finalConns := s.tomigrationFields.disconnect {} }

/-- Run-time environment of one `migrationSink.Do` call: barrier outcome
(push mode) and the outcomes of the up-to-three `connectWithSecret` dials in
program order (pull mode), plus the driver's return value. -/
structure SinkDoEnv where
  allConnectedBeforeTimeout : Bool := true
  dialControl : Except GoError Nat := .ok 100
  dialFs : Except GoError Nat := .ok 101
  dialState : Except GoError Nat := .ok 102
  migrateReceiveErr : Option GoError := none
deriving Repr

/-- Observable outcome of one `migrationSink.Do` run. `dialsAttempted`
lists the secrets passed to `connectWithSecret`, in order; `controlSends`
lists the errors passed to the best-effort `sendControl` notification. -/
structure SinkDoResult where
  result : Option GoError
  barrierCancelled : Bool
  dialsAttempted : List String
  controlSends : List GoError
  receiveCalls : List MigrateReceiveCall
  disconnectRan : Bool
  finalConns : ConnState
deriving DecidableEq, Repr

/-- Common tail of `migrationSink.Do` (lines 233-280): build the accessor
closures from the connection fields as they now stand, call
`MigrateReceive` once, and let the deferred `disconnect()` run on return. -/
def migrationSink.doTail (c : migrationSink) (controlConn fsConn stateConn : Option Nat)
    (env : SinkDoEnv) (dials : List String) : SinkDoResult :=
  let call : MigrateReceiveCall :=
    { stateConnFuncResult := stateConn
      filesystemConnFuncResult := fsConn
      snapshots := !c.instanceOnly
      live := c.live
      clusterMoveSourceName := c.clusterMoveSourceName
      refresh := c.refresh }
  { result := env.migrateReceiveErr.map (GoError.wrap "Failed migration on target")
    barrierCancelled := false
    dialsAttempted := dials
    controlSends := []
    receiveCalls := [call]
    disconnectRan := true
    finalConns :=
      migrationFields.disconnect
        { c.tomigrationFields with
          controlConn := controlConn, fsConn := fsConn, stateConn := stateConn } {} }

/-- `migrationSink.Do` (lines 189-280). In push mode the connection fields
hold whatever the inbound handlers bound; in pull mode they start nil and
are assigned from the sequential dials. -/
def migrationSink.Do (c : migrationSink) (env : SinkDoEnv) : SinkDoResult :=
  if c.push then
    if !env.allConnectedBeforeTimeout then
      { result := some (.msg "Timed out waiting for migration connections")
        barrierCancelled := true
        dialsAttempted := []
        controlSends := []
        receiveCalls := []
        disconnectRan := false
        finalConns := {} }
    else
      c.doTail c.controlConn c.fsConn c.stateConn env []
  else
    match env.dialControl with
    | .error e =>
      { result := some (.wrap "Failed connecting migration control sink socket" e)
        barrierCancelled := false
        dialsAttempted := [c.controlSecret]
        controlSends := []
        receiveCalls := []
        disconnectRan := false
        finalConns := {} }
    | .ok controlConn =>
      match env.dialFs with
      | .error e =>
        let werr := GoError.wrap "Failed connecting migration filesystem sink socket" e
        { result := some werr
          barrierCancelled := false
          dialsAttempted := [c.controlSecret, c.fsSecret]
          controlSends := [werr]
          receiveCalls := []
          disconnectRan := true
          finalConns :=
            migrationFields.disconnect
              { c.tomigrationFields with controlConn := some controlConn } {} }
      | .ok fsConn =>
        if c.live && c.inst.typ == InstanceType.container then
          match env.dialState with
          | .error e =>
            let werr := GoError.wrap "Failed connecting migration state sink socket" e
            { result := some werr
              barrierCancelled := false
              dialsAttempted := [c.controlSecret, c.fsSecret, c.stateSecret]
              controlSends := [werr]
              receiveCalls := []
              disconnectRan := true
              finalConns :=
                migrationFields.disconnect
                  { c.tomigrationFields with
                    controlConn := some controlConn, fsConn := some fsConn } {} }
          | .ok stateConn =>
            c.doTail (some controlConn) (some fsConn) (some stateConn) env
              [c.controlSecret, c.fsSecret, c.stateSecret]
        else
          c.doTail (some controlConn) (some fsConn) none env [c.controlSecret, c.fsSecret]

/-! Sample concrete values used by witnesses and counterexamples. -/

/-- A running container workload. -/
def contRunning : Instance :=
  { projectName := "default", name := "c1", isRunning := true, typ := .container }

/-- A running virtual-machine workload. -/
def vmRunning : Instance :=
  { projectName := "default", name := "v1", isRunning := true, typ := .vm }

/-- A construction environment where every secret mint succeeds and the
criu probe is found. -/
def okEnv : ConstructEnv :=
  { randControl := .ok "sec-control", randFs := .ok "sec-fs", randState := .ok "sec-state"
    criuFound := true }

/-- A push-mode sink session on which only the control channel has bound. -/
def pushSinkControlBound : migrationSink :=
  { inst := contRunning, push := true, controlSecret := "pc", fsSecret := "pf"
    controlConn := some 7 }

/-- A source session with no connections bound. -/
def sourceUnbound : migrationSourceWs :=
  { inst := contRunning, controlSecret := "sc", fsSecret := "sf" }

/-- A pull-mode sink session on a live container. -/
def pullSinkLiveCont : migrationSink :=
  { inst := contRunning, push := false, live := true
    controlSecret := "kc", fsSecret := "kf", stateSecret := "ks" }

/-- A run environment whose barrier times out. -/
def timeoutEnv : SinkDoEnv := { allConnectedBeforeTimeout := false }

/-! ### C5: the driver-args disconnect callback -/

/-- C5 counterexample: the claim says the `Disconnect` callback passed to
the driver closes every non-nil bound connection including control; but for
a session state whose control connection is bound, invoking the callback
(which reads the session's `fsConn`/`stateConn` fields, lines 106-114 and
260-268) leaves the control connection open. -/
theorem C5_counterexample :
    pushSinkControlBound.controlConn.isSome = true
    ∧ (migrateArgsDisconnect pushSinkControlBound.fsConn pushSinkControlBound.stateConn
        {}).controlClosed = false := by
  exact ⟨rfl, rfl⟩

/-- C5 (amended): the `Disconnect` callback passed to the driver in
`MigrateSend`/`MigrateReceive` args closes the filesystem and state
connections when bound (non-nil) and leaves the control connection exactly
as it was — it does not close control. -/
theorem C5_amended_args_disconnect (fsConn stateConn : Option Nat) (cs : ConnState) :
    (migrateArgsDisconnect fsConn stateConn cs).fsClosed = (cs.fsClosed || fsConn.isSome)
    ∧ (migrateArgsDisconnect fsConn stateConn cs).stateClosed
        = (cs.stateClosed || stateConn.isSome)
    ∧ (migrateArgsDisconnect fsConn stateConn cs).controlClosed = cs.controlClosed := by
  cases fsConn <;> cases stateConn <;>
    simp [migrateArgsDisconnect]

/-! ### C3: barrier timeout means a timeout error and no driver callback -/

/-- C3: for the source and the push-mode sink, when the barrier is not
satisfied within the 10-second timeout, `Do()` cancels the barrier, returns
the timeout error, and never invokes the driver callback
(`MigrateSend`/`MigrateReceive`). -/
theorem C3_timeout_no_driver (s : migrationSourceWs) (e : Option GoError)
    (c : migrationSink) (env : SinkDoEnv)
    (hp : c.push = true) (ht : env.allConnectedBeforeTimeout = false) :
    (s.Do false e).result = some (.msg "Timed out waiting for migration connections")
    ∧ (s.Do false e).barrierCancelled = true
    ∧ (s.Do false e).sendCalls = []
    ∧ (c.Do env).result = some (.msg "Timed out waiting for migration connections")
    ∧ (c.Do env).barrierCancelled = true
    ∧ (c.Do env).receiveCalls = [] := by
  refine ⟨rfl, rfl, rfl, ?_, ?_, ?_⟩ <;>
    simp [migrationSink.Do, hp, ht]

/-- C3 witness: concrete timed-out runs of a source and a push sink. -/
theorem C3_timeout_no_driver_witness :
    (sourceUnbound.Do false none).result
        = some (.msg "Timed out waiting for migration connections")
    ∧ (sourceUnbound.Do false none).barrierCancelled = true
    ∧ (sourceUnbound.Do false none).sendCalls = []
    ∧ (pushSinkControlBound.Do timeoutEnv).result
        = some (.msg "Timed out waiting for migration connections")
    ∧ (pushSinkControlBound.Do timeoutEnv).barrierCancelled = true
    ∧ (pushSinkControlBound.Do timeoutEnv).receiveCalls = [] :=
  C3_timeout_no_driver sourceUnbound none pushSinkControlBound timeoutEnv rfl rfl

/-! ### C1: when teardown actually runs -/

/-- Helper: what the spec-modelled `disconnect()` closes. -/
theorem disconnect_closes (f : migrationFields) (cs : ConnState) :
    (f.disconnect cs).controlClosed = (cs.controlClosed || f.controlConn.isSome)
    ∧ (f.disconnect cs).fsClosed = (cs.fsClosed || f.fsConn.isSome)
    ∧ (f.disconnect cs).stateClosed = (cs.stateClosed || f.stateConn.isSome) := by
  cases h1 : f.controlConn <;> cases h2 : f.fsConn <;> cases h3 : f.stateConn <;>
    simp [migrationFields.disconnect, h1, h2, h3]

/-- C1 counterexample: a push-mode sink whose control channel bound but whose
barrier timed out. `Do()` returns the timeout error, yet `disconnect()` never
runs (the `defer` at line 206 is only registered after the `select` at lines
197-202 has already returned), so the bound control channel is not closed —
contradicting the claim that teardown runs on every exit path. -/
theorem C1_counterexample :
    (pushSinkControlBound.Do timeoutEnv).result
        = some (.msg "Timed out waiting for migration connections")
    ∧ pushSinkControlBound.controlConn.isSome = true
    ∧ (pushSinkControlBound.Do timeoutEnv).disconnectRan = false
    ∧ (pushSinkControlBound.Do timeoutEnv).finalConns.controlClosed = false := by
  exact ⟨rfl, rfl, rfl, rfl⟩

/-- C1 (amended): channel teardown runs on every exit path of `Do()` that is
reached after the barrier is satisfied (source and push-mode sink) or after
the control dial succeeds (pull-mode sink), and then closes every bound
connection; on the barrier-timeout path `Do()` returns the timeout error
without running `disconnect()` (the `defer` is registered only after the
barrier wait), and likewise on the pull-mode control-dial-failure path. -/
theorem C1_amended_teardown_paths (s : migrationSourceWs) (e : Option GoError)
    (c : migrationSink) (env : SinkDoEnv) :
    ((s.Do false e).result = some (.msg "Timed out waiting for migration connections")
      ∧ (s.Do false e).disconnectRan = false)
    ∧ ((s.Do true e).disconnectRan = true
      ∧ (s.Do true e).finalConns.controlClosed = s.controlConn.isSome
      ∧ (s.Do true e).finalConns.fsClosed = s.fsConn.isSome
      ∧ (s.Do true e).finalConns.stateClosed = s.stateConn.isSome)
    ∧ (c.push = true → env.allConnectedBeforeTimeout = false →
        (c.Do env).result = some (.msg "Timed out waiting for migration connections")
        ∧ (c.Do env).disconnectRan = false)
    ∧ (c.push = true → env.allConnectedBeforeTimeout = true →
        (c.Do env).disconnectRan = true)
    ∧ (c.push = false → ∀ e2, env.dialControl = .error e2 →
        (c.Do env).disconnectRan = false)
    ∧ (c.push = false → ∀ n, env.dialControl = .ok n →
        (c.Do env).disconnectRan = true) := by
  refine ⟨⟨rfl, rfl⟩, ⟨rfl, ?_, ?_, ?_⟩, ?_, ?_, ?_, ?_⟩
  · exact ((disconnect_closes s.tomigrationFields {}).1).trans (Bool.false_or _)
  · exact ((disconnect_closes s.tomigrationFields {}).2.1).trans (Bool.false_or _)
  · exact ((disconnect_closes s.tomigrationFields {}).2.2).trans (Bool.false_or _)
  · intro hp ht
    constructor <;> simp [migrationSink.Do, hp, ht]
  · intro hp ht
    simp [migrationSink.Do, migrationSink.doTail, hp, ht]
  · intro hp e2 hd
    simp [migrationSink.Do, hp, hd]
  · intro hp n hd
    rcases hfs : env.dialFs with e2 | m
    · simp [migrationSink.Do, hp, hd, hfs]
    · by_cases hl : (c.live && (c.inst.typ == InstanceType.container)) = true
      · rcases hst : env.dialState with e3 | k <;>
          simp [migrationSink.Do, migrationSink.doTail, hp, hd, hfs, hl, hst]
      · simp [migrationSink.Do, migrationSink.doTail, hp, hd, hfs, hl]

/-- C1 amended witness: on the concrete timed-out runs teardown does not
run, and on a satisfied barrier it does. -/
theorem C1_amended_teardown_paths_witness :
    (sourceUnbound.Do false none).disconnectRan = false
    ∧ (pushSinkControlBound.Do timeoutEnv).disconnectRan = false
    ∧ (pushSinkControlBound.Do { }).disconnectRan = true :=
  ⟨(C1_amended_teardown_paths sourceUnbound none pushSinkControlBound timeoutEnv).1.2,
   ((C1_amended_teardown_paths sourceUnbound none pushSinkControlBound timeoutEnv).2.2.1
      rfl rfl).2,
   (C1_amended_teardown_paths sourceUnbound none pushSinkControlBound { }).2.2.2.1 rfl rfl⟩

/-! ### C2: pull-mode dial order and failure handling -/

/-- Helper: an error wrapped with context still matches the original under
Go `errors.Is`. -/
theorem errorsIs_wrap (s : String) (e : GoError) :
    (GoError.wrap s e).errorsIs e = true := by
  have hself : ∀ e2 : GoError, e2.errorsIs e2 = true := by
    intro e2
    cases e2 <;> simp [GoError.errorsIs]
  simp [GoError.errorsIs, hself e]

/-- A pull-mode run environment whose control dial is refused. -/
def dialCtlFailEnv : SinkDoEnv := { dialControl := .error (.msg "connection refused") }

/-- C2: pull-mode sink dials are strictly ordered control → filesystem →
state (state only when live and the workload is a container); a control-dial
failure aborts with no notification and no further dial; a filesystem- or
state-dial failure sends the error over the already-open control channel,
performs no later dial, never invokes `MigrateReceive`, and returns the dial
error wrapped with context (so `errors.Is` still matches the original). -/
theorem C2_pull_dial_order (c : migrationSink) (env : SinkDoEnv) (hp : c.push = false) :
    (∀ e, env.dialControl = .error e →
        (c.Do env).dialsAttempted = [c.controlSecret]
        ∧ (c.Do env).controlSends = []
        ∧ (c.Do env).receiveCalls = []
        ∧ (c.Do env).result = some (.wrap "Failed connecting migration control sink socket" e)
        ∧ (GoError.wrap "Failed connecting migration control sink socket" e).errorsIs e = true)
    ∧ (∀ n e, env.dialControl = .ok n → env.dialFs = .error e →
        (c.Do env).dialsAttempted = [c.controlSecret, c.fsSecret]
        ∧ (c.Do env).controlSends
            = [.wrap "Failed connecting migration filesystem sink socket" e]
        ∧ (c.Do env).receiveCalls = []
        ∧ (c.Do env).result
            = some (.wrap "Failed connecting migration filesystem sink socket" e)
        ∧ (GoError.wrap "Failed connecting migration filesystem sink socket" e).errorsIs e
            = true)
    ∧ (∀ n m e, env.dialControl = .ok n → env.dialFs = .ok m → env.dialState = .error e →
        c.live = true → c.inst.typ = InstanceType.container →
        (c.Do env).dialsAttempted = [c.controlSecret, c.fsSecret, c.stateSecret]
        ∧ (c.Do env).controlSends = [.wrap "Failed connecting migration state sink socket" e]
        ∧ (c.Do env).receiveCalls = []
        ∧ (c.Do env).result = some (.wrap "Failed connecting migration state sink socket" e)
        ∧ (GoError.wrap "Failed connecting migration state sink socket" e).errorsIs e = true)
    ∧ (∀ n m, env.dialControl = .ok n → env.dialFs = .ok m →
        (c.live && (c.inst.typ == InstanceType.container)) = false →
        (c.Do env).dialsAttempted = [c.controlSecret, c.fsSecret]) := by
  refine ⟨?_, ?_, ?_, ?_⟩
  · intro e hd
    refine ⟨?_, ?_, ?_, ?_, errorsIs_wrap _ _⟩ <;> simp [migrationSink.Do, hp, hd]
  · intro n e hd hfs
    refine ⟨?_, ?_, ?_, ?_, errorsIs_wrap _ _⟩ <;> simp [migrationSink.Do, hp, hd, hfs]
  · intro n m e hd hfs hst hl ht
    have hcond : (c.live && (c.inst.typ == InstanceType.container)) = true := by
      rw [hl, ht]; rfl
    refine ⟨?_, ?_, ?_, ?_, errorsIs_wrap _ _⟩ <;>
      simp [migrationSink.Do, hp, hd, hfs, hst, hcond]
  · intro n m hd hfs hcond
    simp [migrationSink.Do, migrationSink.doTail, hp, hd, hfs, hcond]

/-- C2 witness: a concrete pull sink whose control dial is refused attempts
only the control dial, notifies nobody, and never reaches the driver. -/
theorem C2_pull_dial_order_witness :
    (pullSinkLiveCont.Do dialCtlFailEnv).dialsAttempted = ["kc"]
    ∧ (pullSinkLiveCont.Do dialCtlFailEnv).controlSends = []
    ∧ (pullSinkLiveCont.Do dialCtlFailEnv).receiveCalls = []
    ∧ (pullSinkLiveCont.Do dialCtlFailEnv).result
        = some (.wrap "Failed connecting migration control sink socket" (.msg "connection refused"))
    ∧ (GoError.wrap "Failed connecting migration control sink socket"
        (.msg "connection refused")).errorsIs (.msg "connection refused") = true :=
  (C2_pull_dial_order pullSinkLiveCont dialCtlFailEnv rfl).1 (.msg "connection refused") rfl

/-! ### C4: failed capability probe on a live container aborts construction -/

/-- A construction environment where the criu probe fails but secret minting
succeeds. -/
def noCriuEnv : ConstructEnv := { criuFound := false }

/-- Pull-mode sink args requesting live migration of a container, with
control and filesystem secrets supplied. -/
def pullArgsLiveCont : migrationSinkArgs :=
  { inst := contRunning, push := false, live := true
    secrets := { control := some "kc", filesystem := some "kf" } }

/-- C4: whenever the session would be live and the workload is a container,
a failing criu probe makes construction return the capability-missing error
(`ErrNoLiveMigrationSource` for the source, `ErrNoLiveMigrationTarget` for
the sink) instead of a session value. -/
theorem C4_capability_probe (inst : Instance) (io ai : Bool) (nm : String)
    (env env2 : ConstructEnv) (args : migrationSinkArgs) :
    (∀ a b, env.randControl = .ok a → env.randFs = .ok b →
      inst.isRunning = true → inst.typ = InstanceType.container → env.criuFound = false →
      newMigrationSource inst true io ai nm env = .error .noLiveMigrationSource)
    ∧ (args.inst.typ = InstanceType.container → env2.criuFound = false →
        (args.push = true → args.live = true →
          ∀ a b st, env2.randControl = .ok a → env2.randFs = .ok b →
            env2.randState = .ok st →
            newMigrationSink args env2 = .error .noLiveMigrationTarget)
        ∧ (args.push = false →
          ∀ a b, args.secrets.control = some a → args.secrets.filesystem = some b →
            (args.secrets.state.isSome || args.live) = true →
            newMigrationSink args env2 = .error .noLiveMigrationTarget)) := by
  constructor
  · intro a b hc hf hr ht hcr
    have htb : (inst.typ == InstanceType.container) = true := by rw [ht]; rfl
    simp [newMigrationSource, hc, hf, hr, htb, hcr]
  · intro ht hcr
    have htb : (args.inst.typ == InstanceType.container) = true := by rw [ht]; rfl
    constructor
    · intro hp hl a b st hc hf hs
      simp [newMigrationSink, hp, hl, hc, hf, hs, htb, hcr]
    · intro hp a b hc hf hlive
      simp [newMigrationSink, hp, hc, hf, htb, hcr, hlive]

/-- C4 witness: a running container with a failing probe is rejected at
construction, both as a live source and as a live pull-mode sink. -/
theorem C4_capability_probe_witness :
    newMigrationSource contRunning true false false "" noCriuEnv
        = .error .noLiveMigrationSource
    ∧ newMigrationSink pullArgsLiveCont noCriuEnv = .error .noLiveMigrationTarget :=
  ⟨(C4_capability_probe contRunning false false "" noCriuEnv noCriuEnv pullArgsLiveCont).1
      "rand-control" "rand-fs" rfl rfl rfl rfl rfl,
   ((C4_capability_probe contRunning false false "" noCriuEnv noCriuEnv pullArgsLiveCont).2
      rfl rfl).2 rfl "kc" "kf" rfl rfl rfl⟩

/-! ### Characterizations of the two constructors -/

@[simp] theorem container_beq_container :
    (InstanceType.container == InstanceType.container) = true := rfl

@[simp] theorem vm_beq_container :
    (InstanceType.vm == InstanceType.container) = false := rfl

/-- Every field of a successfully constructed source session, as a function
of the inputs. -/
theorem newMigrationSource_ok_char (inst : Instance) (stateful io ai : Bool) (nm : String)
    (env : ConstructEnv) (a b st : String)
    (hc : env.randControl = .ok a) (hf : env.randFs = .ok b) (hs : env.randState = .ok st)
    (ret : migrationSourceWs)
    (hret : newMigrationSource inst stateful io ai nm env = .ok ret) :
    ret.inst = inst ∧ ret.instanceOnly = io ∧ ret.allowInconsistent = ai
    ∧ ret.clusterMoveSourceName = nm
    ∧ ret.controlSecret = a ∧ ret.fsSecret = b
    ∧ ret.live = (stateful && inst.isRunning)
    ∧ ret.stateSecret
        = (if stateful && inst.isRunning && (inst.typ == InstanceType.container)
            then st else "")
    ∧ ret.controlConn = none ∧ ret.fsConn = none ∧ ret.stateConn = none := by
  by_cases hsr : (stateful && inst.isRunning) = true
  · cases hty : inst.typ
    · by_cases hcr : env.criuFound = true
      · simp [newMigrationSource, hc, hf, hs, hsr, hty, hcr] at hret
        simp [← hret, hsr, hty]
      · simp [newMigrationSource, hc, hf, hs, hsr, hty,
          Bool.eq_false_iff.mpr hcr] at hret
    · simp [newMigrationSource, hc, hf, hs, hsr, hty] at hret
      simp [← hret, hsr, hty]
  · simp [newMigrationSource, hc, hf, hs, hsr] at hret
    simp [← hret, hsr]

/-- Every field of a successfully constructed sink session, as a function of
the inputs, split by mode. -/
theorem newMigrationSink_ok_char (args : migrationSinkArgs) (env : ConstructEnv)
    (a b st : String)
    (hc : env.randControl = .ok a) (hf : env.randFs = .ok b) (hs : env.randState = .ok st)
    (sink : migrationSink)
    (hret : newMigrationSink args env = .ok sink) :
    sink.inst = args.inst ∧ sink.instanceOnly = args.instanceOnly
    ∧ sink.url = args.url ∧ sink.clusterMoveSourceName = args.clusterMoveSourceName
    ∧ sink.push = args.push ∧ sink.refresh = args.refresh
    ∧ (args.push = true →
        sink.controlSecret = a ∧ sink.fsSecret = b ∧ sink.live = args.live
        ∧ sink.stateSecret = (if args.live then st else ""))
    ∧ (args.push = false →
        args.secrets.control = some sink.controlSecret
        ∧ args.secrets.filesystem = some sink.fsSecret
        ∧ sink.live = (args.secrets.state.isSome || args.live)
        ∧ sink.stateSecret = args.secrets.state.getD "")
    ∧ sink.controlConn = none ∧ sink.fsConn = none ∧ sink.stateConn = none := by
  cases hp : args.push
  · cases hco : args.secrets.control with
    | none => simp [newMigrationSink, hp, hco] at hret
    | some csec =>
      cases hfo : args.secrets.filesystem with
      | none => simp [newMigrationSink, hp, hco, hfo] at hret
      | some fsec =>
        simp only [newMigrationSink, hp, hco, hfo, Bool.false_eq_true, if_false] at hret
        split at hret
        · cases hret
        · cases hret
          simp [hp, hco, hfo]
  · cases hl : args.live
    · simp only [newMigrationSink, hp, hl, hc, hf, Bool.false_eq_true, if_true,
        if_false] at hret
      split at hret
      · cases hret
      · cases hret
        simp [hp, hl]
    · simp only [newMigrationSink, hp, hl, hc, hf, hs, if_true] at hret
      split at hret
      · cases hret
      · cases hret
        simp [hp, hl]

/-! ### C6: when a state secret exists -/

/-- Push-mode sink args requesting live migration of a virtual machine. -/
def pushArgsLiveVM : migrationSinkArgs := { inst := vmRunning, push := true, live := true }

/-- The pull-mode sink produced by `pullArgsLiveCont` under `okEnv`. -/
def pullSinkConstructed : migrationSink :=
  { inst := contRunning, push := false, live := true
    controlSecret := "kc", fsSecret := "kf", stateSecret := "" }

/-- C6 counterexample: a push-mode sink for a live virtual machine mints a
(non-empty) state secret even though the workload is not a container
(line 158 gates only on `live`), refuting "state secret present iff live and
container" for every constructed session. -/
theorem C6_counterexample :
    (newMigrationSink pushArgsLiveVM okEnv).map
        (fun k => (k.stateSecret, k.live, k.inst.typ))
      = .ok ("sec-state", true, InstanceType.vm)
    ∧ ("sec-state" : String) ≠ ""
    ∧ InstanceType.vm ≠ InstanceType.container := by
  exact ⟨rfl, by decide, by decide⟩

/-- C6 (amended): for the source, a state secret is present iff the session
is live and the workload is a container; for the push-mode sink it is minted
iff live is requested, regardless of workload type; for the pull-mode sink
it equals the caller-supplied state entry (empty when absent) and the live
flag is (state entry present OR explicit live). The pull-mode state channel
is dialed iff the session is live and the workload is a container. -/
theorem C6_amended_state_secret (inst : Instance) (stateful io ai : Bool) (nm : String)
    (env : ConstructEnv) (a b st : String) (args : migrationSinkArgs)
    (c : migrationSink) (env2 : SinkDoEnv)
    (hc : env.randControl = .ok a) (hf : env.randFs = .ok b) (hs : env.randState = .ok st)
    (hne : st ≠ "") :
    (∀ ret, newMigrationSource inst stateful io ai nm env = .ok ret →
        (ret.stateSecret ≠ "" ↔ (ret.live = true ∧ inst.typ = InstanceType.container)))
    ∧ (args.push = true → ∀ sink, newMigrationSink args env = .ok sink →
        (sink.stateSecret ≠ "" ↔ sink.live = true))
    ∧ (args.push = false → ∀ sink, newMigrationSink args env = .ok sink →
        sink.stateSecret = args.secrets.state.getD ""
        ∧ sink.live = (args.secrets.state.isSome || args.live))
    ∧ (c.push = false → ∀ n m, env2.dialControl = .ok n → env2.dialFs = .ok m →
        ((c.Do env2).dialsAttempted.length = 3
          ↔ (c.live && (c.inst.typ == InstanceType.container)) = true)) := by
  refine ⟨?_, ?_, ?_, ?_⟩
  · intro ret hret
    obtain ⟨-, -, -, -, -, -, hlive, hss, -⟩ :=
      newMigrationSource_ok_char inst stateful io ai nm env a b st hc hf hs ret hret
    rw [hlive, hss]
    cases hty : inst.typ <;> by_cases h1 : (stateful && inst.isRunning) = true <;>
      simp [h1, hty, hne]
  · intro hp sink hret
    obtain ⟨-, -, -, -, -, -, hpush, -, -⟩ :=
      newMigrationSink_ok_char args env a b st hc hf hs sink hret
    obtain ⟨-, -, hlive, hss⟩ := hpush hp
    rw [hlive, hss]
    cases hl : args.live <;> simp [hl, hne]
  · intro hp sink hret
    obtain ⟨-, -, -, -, -, -, -, hpull, -⟩ :=
      newMigrationSink_ok_char args env a b st hc hf hs sink hret
    obtain ⟨-, -, hlive, hss⟩ := hpull hp
    exact ⟨hss, hlive⟩
  · intro hp n m hd hfs
    by_cases hcond : (c.live && (c.inst.typ == InstanceType.container)) = true
    · rcases hst2 : env2.dialState with e3 | k <;>
        simp [migrationSink.Do, migrationSink.doTail, hp, hd, hfs, hcond, hst2]
    · simp [migrationSink.Do, migrationSink.doTail, hp, hd, hfs, hcond]

/-- C6 amended witness: the concrete pull-mode sink built from
`pullArgsLiveCont` has an empty state secret and effective live = true. -/
theorem C6_amended_state_secret_witness :
    pullSinkConstructed.stateSecret = pullArgsLiveCont.secrets.state.getD ""
    ∧ pullSinkConstructed.live
        = (pullArgsLiveCont.secrets.state.isSome || pullArgsLiveCont.live) :=
  (C6_amended_state_secret contRunning true false false "" okEnv
      "sec-control" "sec-fs" "sec-state" pullArgsLiveCont pullSinkLiveCont {}
      rfl rfl rfl (by decide)).2.2.1 rfl pullSinkConstructed rfl

/-! ### C7: pull-mode construction requires control and filesystem secrets -/

/-- Pull-mode sink args missing the control secret. -/
def pullArgsNoCtl : migrationSinkArgs :=
  { inst := contRunning, push := false, secrets := { filesystem := some "kf" } }

/-- C7: pull-mode construction fails with a missing-secret error when the
control or filesystem entry is absent from the supplied table; when it
succeeds, the effective live flag is (state entry present) OR (explicit live
argument). -/
theorem C7_pull_secrets_required (args : migrationSinkArgs) (env : ConstructEnv)
    (hp : args.push = false) :
    (args.secrets.control = none →
        newMigrationSink args env
          = .error (.msg "Missing migration sink secret for control websocket"))
    ∧ (∀ csec, args.secrets.control = some csec → args.secrets.filesystem = none →
        newMigrationSink args env
          = .error (.msg "Missing migration sink secret for filesystem websocket"))
    ∧ (∀ sink, newMigrationSink args env = .ok sink →
        sink.live = (args.secrets.state.isSome || args.live)) := by
  refine ⟨?_, ?_, ?_⟩
  · intro hco
    simp [newMigrationSink, hp, hco]
  · intro csec hco hfo
    simp [newMigrationSink, hp, hco, hfo]
  · intro sink hret
    cases hco : args.secrets.control with
    | none => simp [newMigrationSink, hp, hco] at hret
    | some csec =>
      cases hfo : args.secrets.filesystem with
      | none => simp [newMigrationSink, hp, hco, hfo] at hret
      | some fsec =>
        simp only [newMigrationSink, hp, hco, hfo, Bool.false_eq_true, if_false] at hret
        split at hret
        · cases hret
        · cases hret
          rfl

/-- C7 witness: a pull sink with no control secret is rejected, and the
concrete pull sink built from `pullArgsLiveCont` resolves live from the
table and the explicit flag. -/
theorem C7_pull_secrets_required_witness :
    newMigrationSink pullArgsNoCtl okEnv
        = .error (.msg "Missing migration sink secret for control websocket")
    ∧ pullSinkConstructed.live
        = (pullArgsLiveCont.secrets.state.isSome || pullArgsLiveCont.live) :=
  ⟨(C7_pull_secrets_required pullArgsNoCtl okEnv rfl).1 rfl,
   (C7_pull_secrets_required pullArgsLiveCont okEnv rfl).2.2 pullSinkConstructed rfl⟩

/-! ### C8: exactly one driver call, with the advertised accessors and flags -/

/-- C8: once all required channels are ready, `Do()` calls the driver exactly
once; the channel accessor functions return a stream iff the connection is
bound, and the flags are Snapshots = !instanceOnly, Live = session live,
the cluster-move-source-name, allow-inconsistent (source) and refresh
(sink). -/
theorem C8_driver_invocation (s : migrationSourceWs) (e : Option GoError)
    (c : migrationSink) (env : SinkDoEnv) :
    (s.Do true e).sendCalls
        = [{ stateConnFuncResult := s.stateConn, filesystemConnFuncResult := s.fsConn,
             snapshots := !s.instanceOnly, live := s.live,
             clusterMoveSourceName := s.clusterMoveSourceName,
             allowInconsistent := s.allowInconsistent }]
    ∧ (c.push = true → env.allConnectedBeforeTimeout = true →
        (c.Do env).receiveCalls
          = [{ stateConnFuncResult := c.stateConn, filesystemConnFuncResult := c.fsConn,
               snapshots := !c.instanceOnly, live := c.live,
               clusterMoveSourceName := c.clusterMoveSourceName, refresh := c.refresh }])
    ∧ (c.push = false → ∀ n m k, env.dialControl = .ok n → env.dialFs = .ok m →
        env.dialState = .ok k → c.live = true → c.inst.typ = InstanceType.container →
        (c.Do env).receiveCalls
          = [{ stateConnFuncResult := some k, filesystemConnFuncResult := some m,
               snapshots := !c.instanceOnly, live := c.live,
               clusterMoveSourceName := c.clusterMoveSourceName, refresh := c.refresh }])
    ∧ (c.push = false → ∀ n m, env.dialControl = .ok n → env.dialFs = .ok m →
        (c.live && (c.inst.typ == InstanceType.container)) = false →
        (c.Do env).receiveCalls
          = [{ stateConnFuncResult := none, filesystemConnFuncResult := some m,
               snapshots := !c.instanceOnly, live := c.live,
               clusterMoveSourceName := c.clusterMoveSourceName, refresh := c.refresh }]) := by
  refine ⟨rfl, ?_, ?_, ?_⟩
  · intro hp ht
    simp [migrationSink.Do, migrationSink.doTail, hp, ht]
  · intro hp n m k hd hfs hst hl hty
    have hcond : (c.live && (c.inst.typ == InstanceType.container)) = true := by
      rw [hl, hty]; rfl
    simp [migrationSink.Do, migrationSink.doTail, hp, hd, hfs, hst, hcond]
  · intro hp n m hd hfs hcond
    simp [migrationSink.Do, migrationSink.doTail, hp, hd, hfs, hcond]

/-- C8 witness: the push sink with only control bound gets exactly one
`MigrateReceive` call whose filesystem and state accessors return nil. -/
theorem C8_driver_invocation_witness :
    (pushSinkControlBound.Do { }).receiveCalls
      = [{ stateConnFuncResult := none, filesystemConnFuncResult := none,
           snapshots := true, live := false, clusterMoveSourceName := "",
           refresh := false }] :=
  (C8_driver_invocation sourceUnbound none pushSinkControlBound { }).2.1 rfl rfl

/-! ### C9: what source construction mints -/

/-- C9: a successful source construction always carries the two freshly
minted control/filesystem secrets; it is live iff stateful transfer was
requested and the workload is running; a state secret is minted only for a
live container; and a live VM is accepted with no state secret even when the
criu probe would fail (the probe is not consulted). -/
theorem C9_source_construction (inst : Instance) (stateful io ai : Bool) (nm : String)
    (env : ConstructEnv) (a b st : String)
    (hc : env.randControl = .ok a) (hf : env.randFs = .ok b) (hs : env.randState = .ok st)
    (ha : a ≠ "") (hb : b ≠ "") :
    (∀ ret, newMigrationSource inst stateful io ai nm env = .ok ret →
        ret.controlSecret = a ∧ ret.fsSecret = b
        ∧ ret.controlSecret ≠ "" ∧ ret.fsSecret ≠ ""
        ∧ ret.live = (stateful && inst.isRunning)
        ∧ (ret.stateSecret ≠ "" → (ret.live = true ∧ inst.typ = InstanceType.container)))
    ∧ (inst.typ = InstanceType.vm → inst.isRunning = true →
        newMigrationSource inst true io ai nm env
          = .ok { inst := inst, instanceOnly := io, allowInconsistent := ai, live := true,
                  controlSecret := a, fsSecret := b, clusterMoveSourceName := nm }) := by
  constructor
  · intro ret hret
    obtain ⟨-, -, -, -, hcs, hfss, hlive, hss, -⟩ :=
      newMigrationSource_ok_char inst stateful io ai nm env a b st hc hf hs ret hret
    refine ⟨hcs, hfss, hcs ▸ ha, hfss ▸ hb, hlive, ?_⟩
    rw [hss, hlive]
    cases hty : inst.typ <;> by_cases h1 : (stateful && inst.isRunning) = true <;>
      simp [h1, hty]
  · intro hty hr
    simp [newMigrationSource, hc, hf, hr, hty]

/-- C9 witness: a running VM with stateful transfer requested is accepted as
a live source with no state secret even though the criu probe fails. -/
theorem C9_source_construction_witness :
    newMigrationSource vmRunning true false false "" noCriuEnv
      = .ok { inst := vmRunning, instanceOnly := false, allowInconsistent := false,
              live := true, controlSecret := "rand-control", fsSecret := "rand-fs",
              clusterMoveSourceName := "" } :=
  (C9_source_construction vmRunning true false false "" noCriuEnv
      "rand-control" "rand-fs" "rand-state" rfl rfl rfl (by decide) (by decide)).2 rfl rfl

/-! ### C10: the optional state entry defaults to the empty-string secret -/

/-- C10: a pull-mode sink whose table lacks a state entry but whose explicit
live argument is true is constructed with `stateSecret = ""` and
`live = true`; on a container, `Do()` then attempts the state dial with that
empty-string secret. -/
theorem C10_empty_state_secret (args : migrationSinkArgs) (env : ConstructEnv)
    (env2 : SinkDoEnv)
    (hp : args.push = false) (hso : args.secrets.state = none) (hl : args.live = true)
    (hcriu : env.criuFound = true) :
    (∀ csec fsec, args.secrets.control = some csec → args.secrets.filesystem = some fsec →
        newMigrationSink args env
          = .ok { inst := args.inst, instanceOnly := args.instanceOnly, url := args.url,
                  clusterMoveSourceName := args.clusterMoveSourceName, push := false,
                  refresh := args.refresh, controlSecret := csec, fsSecret := fsec,
                  stateSecret := "", live := true })
    ∧ (∀ sink : migrationSink, sink.push = false → sink.live = true →
        sink.stateSecret = "" → sink.inst.typ = InstanceType.container →
        ∀ n m, env2.dialControl = .ok n → env2.dialFs = .ok m →
        (sink.Do env2).dialsAttempted = [sink.controlSecret, sink.fsSecret, ""]) := by
  constructor
  · intro csec fsec hco hfo
    simp [newMigrationSink, hp, hco, hfo, hso, hl, hcriu]
  · intro sink hp2 hl2 hss hty n m hd hfs
    have hcond : (sink.live && (sink.inst.typ == InstanceType.container)) = true := by
      rw [hl2, hty]; rfl
    rcases hst2 : env2.dialState with e3 | k <;>
      simp [migrationSink.Do, migrationSink.doTail, hp2, hd, hfs, hcond, hst2, hss]

/-- C10 witness: `pullArgsLiveCont` (live flag set, no state entry) builds
the sink with an empty state secret, and its pull `Do()` dials the state
channel with the empty string. -/
theorem C10_empty_state_secret_witness :
    newMigrationSink pullArgsLiveCont okEnv
        = .ok { inst := contRunning, instanceOnly := false, url := "",
                clusterMoveSourceName := "", push := false, refresh := false,
                controlSecret := "kc", fsSecret := "kf", stateSecret := "", live := true }
    ∧ (pullSinkConstructed.Do { }).dialsAttempted = ["kc", "kf", ""] :=
  ⟨(C10_empty_state_secret pullArgsLiveCont okEnv { } rfl rfl rfl rfl).1
      "kc" "kf" rfl rfl,
   (C10_empty_state_secret pullArgsLiveCont okEnv { } rfl rfl rfl rfl).2
      pullSinkConstructed rfl rfl rfl rfl 100 101 rfl rfl⟩

end MigrateInstance
